import Mathlib

/-!
# Verification of the solid-mcp-poc integration layer

A shallow embedding of the repository code, in three parts:

* Python-style string primitives (`pyStrip`, `pyLower`, `pyIn`, …) modelling
  the `str` operations the code uses (`strip`, `lower`, `in`, `startswith`,
  slicing, `"\n".join`).  They are restricted to the ASCII behaviour the
  repository relies on.
* A `Value` type modelling the Python values the code inspects at runtime
  (strings, lists, dicts, attribute-bearing objects, `None`, and a catch-all
  for any other value carrying its `str()` rendering), together with the
  response normalizer `_extract_mcp_tool_text` (here `extract`), the
  credential-exchange functions of `auth.py` / `tool.py`, and the
  `SolidText2SQLTool._run` → `_call_solid_text2sql` pipeline, instrumented
  with an explicit trace of outbound-call events.
* The REST retry loop and response classification of
  `scripts/e2e_openapi_test.py`.

Outbound HTTP / MCP interactions are modelled by oracles (`AuthNet`,
`Except`-valued connect/tool outcomes) supplied in an `Env`; each definition
records the calls it performs so that "performs zero network calls" and
"disconnect on every exit path" are statable.
-/

/-! ## Python string primitives -/

/-- Whitespace characters removed by Python `str.strip()`. -/
def isPySpace (c : Char) : Bool :=
  c = ' ' || c = '\t' || c = '\n' || c = '\r' || c = '\x0b' || c = '\x0c'

/-- Python `str.strip()`: remove leading and trailing whitespace. -/
def pyStrip (s : String) : String :=
  String.mk (((s.data.dropWhile isPySpace).reverse.dropWhile isPySpace).reverse)

/-- Python `str.lower()` (ASCII range, which is all the repository uses). -/
def pyLower (s : String) : String :=
  String.mk (s.data.map Char.toLower)

/-- Python `needle in haystack` for strings (substring test). -/
def pyInAux (pat : List Char) : List Char → Bool
  | [] => pat.isPrefixOf []
  | c :: rest => pat.isPrefixOf (c :: rest) || pyInAux pat rest

/-- Python `pat in s` (substring containment). -/
def pyIn (pat s : String) : Bool :=
  pyInAux pat.data s.data

/-- Python `s.startswith(pre)`. -/
def pyStarts (s pre : String) : Bool :=
  pre.data.isPrefixOf s.data

/-- Python `s[n:]`. -/
def pyDropChars (s : String) (n : Nat) : String :=
  String.mk (s.data.drop n)

/-- Python `sep.join(parts)`. -/
def pyJoin (sep : String) : List String → String
  | [] => ""
  | [p] => p
  | p :: q :: rest => p ++ sep ++ pyJoin sep (q :: rest)

/-- The bearer-prefix normalization shared by `auth.get_mcp_token` and
`tool._get_mcp_token`:
`token = token.strip(); if token.lower().startswith("bearer "): token = token[7:].strip()`. -/
def stripBearer (t : String) : String :=
  let t := pyStrip t
  if pyStarts (pyLower t) "bearer " then pyStrip (pyDropChars t 7) else t

/-! ## Python runtime values -/

/-- A Python value as inspected by the repository code: a string, a list, a
dict (association list of string keys), an object exposing attributes
(association list of attribute names — distinct from dict keys, matching
`hasattr`/`getattr` vs `dict.get`), `None`, or any other value carrying its
`str()` rendering. -/
inductive Value : Type where
  | str : String → Value
  | list : List Value → Value
  | dict : List (String × Value) → Value
  | obj : List (String × Value) → Value
  | null : Value
  | other : String → Value

/-- Python `d.get(k)` on a dict: the stored value, or `None` when the key is
absent (so a key stored with value `None` is indistinguishable from a missing
key, exactly as in Python). -/
def pyGet (fs : List (String × Value)) (k : String) : Value :=
  match fs with
  | [] => .null
  | (k', v) :: rest => if k' = k then v else pyGet rest k

/-- Attribute lookup: `getattr(x, k)` when `hasattr(x, k)`, i.e. `some v` iff
the attribute exists (even when its value is `None`). -/
def getAttr (fs : List (String × Value)) (k : String) : Option Value :=
  match fs with
  | [] => none
  | (k', v) :: rest => if k' = k then some v else getAttr rest k

/-- Python truthiness of a value (`if not x`). -/
def pyTruthy : Value → Bool
  | .null => false
  | .str s => !s.isEmpty
  | .list xs => !xs.isEmpty
  | .dict fs => !fs.isEmpty
  | .obj _ => true
  | .other _ => true

/-- Python `a or b`: `a` when truthy, otherwise `b`. -/
def pyOr (a b : Value) : Value :=
  if pyTruthy a then a else b

mutual

/-- Python `repr` of a value (string quoting abbreviated to double quotes and
object rendering abbreviated to `<object>`; no claim depends on the exact
rendering, only on its totality). -/
def pyRepr : Value → String
  | .str s => "\"" ++ s ++ "\""
  | .list xs => "[" ++ pyJoin ", " (pyReprList xs) ++ "]"
  | .dict fs => "\x7b" ++ pyJoin ", " (pyReprFields fs) ++ "\x7d"
  | .obj _ => "<object>"
  | .null => "None"
  | .other r => r

/-- `repr` of each element of a list. -/
def pyReprList : List Value → List String
  | [] => []
  | v :: vs => pyRepr v :: pyReprList vs

/-- `repr` of each key/value pair of a dict. -/
def pyReprFields : List (String × Value) → List String
  | [] => []
  | (k, v) :: fs => ("\"" ++ k ++ "\": " ++ pyRepr v) :: pyReprFields fs

end

/-- Python `str(x)`: the string itself for a string, `repr`-style rendering
otherwise. -/
def pyStr : Value → String
  | .str s => s
  | v => pyRepr v

/-- `v is None`. -/
def Value.isNull : Value → Bool
  | .null => true
  | _ => false

/-- `isinstance(v, str)`. -/
def Value.isStr : Value → Bool
  | .str _ => true
  | _ => false

/-- `isinstance(v, list)`. -/
def Value.isList : Value → Bool
  | .list _ => true
  | _ => false

/-- `isinstance(v, dict)`. -/
def Value.isDict : Value → Bool
  | .dict _ => true
  | _ => false

/-! ## The response normalizer `_extract_mcp_tool_text` (tool.py lines 131-160) -/

/-- The `isinstance(result, list)` branch of `_extract_mcp_tool_text`: collect
`str(text).strip()` for each dict item whose `"text"` key is present and not
`None`, and `str(getattr(item, "text", "")).strip()` for each non-dict item
with a `text` attribute; all other items are skipped. -/
def textParts : List Value → List String
  | [] => []
  | .dict fs :: rest =>
      if (pyGet fs "text").isNull then textParts rest
      else pyStrip (pyStr (pyGet fs "text")) :: textParts rest
  | .obj fs :: rest =>
      match getAttr fs "text" with
      | some t => pyStrip (pyStr t) :: textParts rest
      | none => textParts rest
  | _ :: rest => textParts rest

/-- `v.isList = true` implies `v` is not `None`. -/
theorem isNull_of_isList {v : Value} (h : v.isList = true) : v.isNull = false := by
  cases v <;> simp_all [Value.isList, Value.isNull]

/-- `v.isDict = true` implies `v` is not `None`. -/
theorem isNull_of_isDict {v : Value} (h : v.isDict = true) : v.isNull = false := by
  cases v <;> simp_all [Value.isDict, Value.isNull]

/-- A non-`None` value fetched out of a dict is structurally smaller than the
field list it came from. -/
theorem sizeOf_pyGet_lt {fs : List (String × Value)} {k : String}
    (h : (pyGet fs k).isNull = false) : sizeOf (pyGet fs k) < 1 + sizeOf fs := by
  induction fs with
  | nil => simp [pyGet, Value.isNull] at h
  | cons p rest ih =>
    obtain ⟨k', v⟩ := p
    by_cases hk : k' = k
    · simp only [pyGet, if_pos hk]
      simp only [List.cons.sizeOf_spec, Prod.mk.sizeOf_spec]
      omega
    · simp only [pyGet, if_neg hk] at h ⊢
      have := ih h
      simp only [List.cons.sizeOf_spec, Prod.mk.sizeOf_spec]
      omega

/-- A value fetched out of an attribute list is structurally smaller than the
attribute list it came from. -/
theorem sizeOf_getAttr_lt {fs : List (String × Value)} {k : String} {v : Value}
    (h : getAttr fs k = some v) : sizeOf v < 1 + sizeOf fs := by
  induction fs with
  | nil => simp [getAttr] at h
  | cons p rest ih =>
    obtain ⟨k', w⟩ := p
    by_cases hk : k' = k
    · simp only [getAttr, if_pos hk, Option.some.injEq] at h
      subst h
      simp only [List.cons.sizeOf_spec, Prod.mk.sizeOf_spec]
      omega
    · simp only [getAttr, if_neg hk] at h
      have := ih h
      simp only [List.cons.sizeOf_spec, Prod.mk.sizeOf_spec]
      omega

/-- `_extract_mcp_tool_text(result)` (tool.py lines 131-160), branch for
branch.  Recursion into a dict's `"content"` list, its non-`None` `"text"`
value, its `"result"` dict, or an object's `content` attribute, exactly as in
the source; every other shape terminates immediately. -/
def extract : Value → String
  | .null => ""
  | .str s => pyStrip s
  | .list xs =>
      if (textParts xs).isEmpty then pyStrip (pyStr (.list xs))
      else pyJoin "\n" (textParts xs)
  | .dict fs =>
      if hc : (pyGet fs "content").isList then extract (pyGet fs "content")
      else if ht : (pyGet fs "text").isNull then
        if hr : (pyGet fs "result").isDict then extract (pyGet fs "result")
        else pyStrip (pyStr (.dict fs))
      else extract (pyGet fs "text")
  | .obj fs =>
      match hA : getAttr fs "content" with
      | some v => extract v
      | none => pyStrip (pyStr (.obj fs))
  | .other r => pyStrip r
termination_by v => sizeOf v
decreasing_by
  · have := sizeOf_pyGet_lt (isNull_of_isList hc)
    simp only [Value.dict.sizeOf_spec]
    omega
  · have := sizeOf_pyGet_lt (isNull_of_isDict hr)
    simp only [Value.dict.sizeOf_spec]
    omega
  · have := sizeOf_pyGet_lt (Bool.not_eq_true _ ▸ ht)
    simp only [Value.dict.sizeOf_spec]
    omega
  · have := sizeOf_getAttr_lt hA
    simp only [Value.obj.sizeOf_spec]
    omega

/-- Fuel-indexed variant of `extract`, structurally recursive in the fuel.
`none` means the fuel ran out; `extractF_eq` below shows fuel `sizeOf v`
always suffices, which is the termination claim about the source function. -/
def extractF : Nat → Value → Option String
  | 0, _ => none
  | _ + 1, .null => some ""
  | _ + 1, .str s => some (pyStrip s)
  | _ + 1, .list xs =>
      some (if (textParts xs).isEmpty then pyStrip (pyStr (.list xs))
            else pyJoin "\n" (textParts xs))
  | n + 1, .dict fs =>
      if (pyGet fs "content").isList then extractF n (pyGet fs "content")
      else if (pyGet fs "text").isNull then
        if (pyGet fs "result").isDict then extractF n (pyGet fs "result")
        else some (pyStrip (pyStr (.dict fs)))
      else extractF n (pyGet fs "text")
  | n + 1, .obj fs =>
      match getAttr fs "content" with
      | some v => extractF n v
      | none => some (pyStrip (pyStr (.obj fs)))
  | _ + 1, .other r => some (pyStrip r)

/-- Any fuel larger than the size of the input is enough: `extractF` reaches
the same answer as the unbounded recursion. -/
theorem extractF_eq : ∀ (n : Nat) (v : Value), sizeOf v < n → extractF n v = some (extract v) := by
  intro n
  induction n with
  | zero => intro v h; omega
  | succ n ih =>
    intro v h
    cases v with
    | null => simp [extractF, extract]
    | str s => simp [extractF, extract]
    | list xs => simp [extractF, extract]
    | other r => simp [extractF, extract]
    | dict fs =>
      have hfs : sizeOf fs < n := by
        simp only [Value.dict.sizeOf_spec] at h; omega
      rw [extract]
      by_cases hc : (pyGet fs "content").isList
      · have := sizeOf_pyGet_lt (isNull_of_isList hc)
        simp only [extractF, hc, if_true, dif_pos hc]
        exact ih _ (by omega)
      · by_cases ht : (pyGet fs "text").isNull
        · by_cases hr : (pyGet fs "result").isDict
          · have := sizeOf_pyGet_lt (isNull_of_isDict hr)
            simp only [extractF, hc, ht, hr, if_true, if_false, dif_pos, dif_neg, not_false_iff]
            exact ih _ (by omega)
          · simp [extractF, hc, ht, hr]
        · have := sizeOf_pyGet_lt (Bool.not_eq_true _ ▸ ht)
          simp only [extractF, hc, ht, if_false, dif_neg, not_false_iff]
          exact ih _ (by omega)
    | obj fs =>
      have hfs : sizeOf fs < n := by
        simp only [Value.obj.sizeOf_spec] at h; omega
      rw [extract]
      cases hA : getAttr fs "content" with
      | some v' =>
        have := sizeOf_getAttr_lt hA
        simp only [extractF, hA]
        exact ih _ (by omega)
      | none => simp [extractF, hA]

/-- Computation rule: if the fuel-indexed normalizer reaches an answer, the
source normalizer returns that answer (used to evaluate `extract` on concrete
inputs). -/
theorem extract_of_extractF : ∀ (n : Nat) (v : Value) (s : String),
    extractF n v = some s → extract v = s := by
  intro n
  induction n with
  | zero => intro v s h; simp [extractF] at h
  | succ n ih =>
    intro v s h
    cases v with
    | null => simp [extractF] at h; simp [extract, ← h]
    | str t => simp [extractF] at h; simp [extract, ← h]
    | list xs => simp [extractF] at h; simp [extract, ← h]
    | other r => simp [extractF] at h; simp [extract, ← h]
    | dict fs =>
      rw [extract]
      by_cases hc : (pyGet fs "content").isList
      · simp only [extractF, hc, if_true] at h
        simp only [dif_pos hc]
        exact ih _ _ h
      · by_cases ht : (pyGet fs "text").isNull
        · by_cases hr : (pyGet fs "result").isDict
          · simp only [extractF, hc, ht, hr, if_true, if_false] at h
            simp only [dif_neg hc, dif_pos ht, dif_pos hr]
            exact ih _ _ h
          · simp [extractF, hc, ht, hr] at h
            simp only [dif_neg hc, dif_pos ht, dif_neg hr]
            exact h
        · simp only [extractF, hc, ht, if_false] at h
          simp only [dif_neg hc, dif_neg ht]
          exact ih _ _ h
    | obj fs =>
      rw [extract]
      cases hA : getAttr fs "content" with
      | some v' =>
        simp only [extractF, hA] at h
        simp only [hA]
        exact ih _ _ h
      | none =>
        simp [extractF, hA] at h
        simp only [hA]
        exact h

/-! ## Credential exchange (src/soliddata_mcp_poc/auth.py and tool.py) -/

/-- Outcome of the one outbound auth POST, as observed by the caller after
`resp = client.post(...)`: an exception raised by the transport /
`raise_for_status` / JSON decoding, a 401 status (special-cased in
`auth.get_mcp_token` before `raise_for_status`), or a 2xx response with a
decoded JSON `body` (all 2xx statuses are treated alike by both variants). -/
inductive AuthNet where
  | raised : String → AuthNet
  | status401 : AuthNet
  | ok200 : Value → AuthNet

/-- Python `type(x)` rendering, abbreviated to the class name. -/
def pyTypeName : Value → String
  | .str _ => "str"
  | .list _ => "list"
  | .dict _ => "dict"
  | .obj _ => "object"
  | .null => "NoneType"
  | .other _ => "object"

/-- Result of `auth.get_mcp_token`: either it rejected the key before any
network interaction (`configError`, spec taxonomy `ConfigurationError`), or it
performed the one outbound POST and then either returned a token or raised
(`net`). -/
inductive AuthOutcome where
  | configError : String → AuthOutcome
  | net : Except String String → AuthOutcome

/-- Token extraction from a JSON-object auth body, shared verbatim by both
variants: `data.get("token") or data.get("access_token") or
data.get("accessToken")`, then `if not token or not isinstance(token, str)`
fails, else the bearer-prefix normalization. -/
def tokenFromDict (missingMsg : String) (fs : List (String × Value)) : Except String String :=
  match pyOr (pyGet fs "token") (pyOr (pyGet fs "access_token") (pyGet fs "accessToken")) with
  | .str s => if s.isEmpty then .error missingMsg else .ok (stripBearer s)
  | _ => .error missingMsg

/-- `get_mcp_token` of `src/soliddata_mcp_poc/auth.py` (lines 12-69).  The
`key` is the management key in use; `net` is the outcome of the POST the
function performs when the key passes the placeholder guard. -/
def authExchange (key : String) (net : AuthNet) : AuthOutcome :=
  if pyStrip key = "" then
    .configError "SOLIDDATA_MANAGEMENT_KEY is missing or empty. Set it in your .env file (see .env.example)."
  else if pyIn "your_management_key" (pyLower key) || pyIn "here" (pyLower key) then
    .configError "SOLIDDATA_MANAGEMENT_KEY looks like a placeholder. Replace it in .env with your real SolidData management key."
  else
    .net (match net with
      | .status401 => .error "SolidData returned 401 Unauthorized. Check that SOLIDDATA_MANAGEMENT_KEY in .env is correct, not expired, and valid for the auth endpoint (e.g. dev vs prod)."
      | .raised e => .error e
      | .ok200 body =>
        if !pyTruthy body then
          .error "Auth endpoint returned empty response. Status 200"
        else match body with
          | .str s => .ok (stripBearer s)
          | .dict fs => tokenFromDict "Auth endpoint returned a JSON object but no \x27token\x27 or \x27access_token\x27 field." fs
          | b => .error ("Unexpected auth response type: " ++ pyTypeName b))

/-- Decide whether `authExchange` rejected the key without any network call. -/
def AuthOutcome.isConfigError : AuthOutcome → Bool
  | .configError _ => true
  | .net _ => false

/-! ## The CrewAI tool (solid_mcp_tool/tool.py) -/

/-- Environment of one tool invocation: the two configuration variables and
the oracle outcomes of the outbound interactions (auth POST, MCP connect, MCP
`call_tool`).  A missing environment variable is the empty string, matching
`os.environ.get(name, "")`. -/
structure Env where
  managementKey : String
  semanticLayerId : String
  authNet : AuthNet
  connectRes : Except String Unit
  toolRes : Except String Value

/-- Observable outbound events of one invocation, in order: the auth POST, the
MCP session connect attempt, the `text2sql` tool call with its two arguments,
and the session disconnect. -/
inductive Ev where
  | authCall : Ev
  | connect : Ev
  | toolCall : String → String → Ev
  | disconnect : Ev
deriving DecidableEq

/-- `_get_mcp_token` of tool.py (lines 33-65), with its trace of outbound
calls: the placeholder guard rejects before any network interaction;
otherwise one POST happens and the response is decoded exactly as in the
source (note: unlike auth.py, this variant strips the key before the guard,
has no empty-body check, and lets `raise_for_status` raise on 401). -/
def getMcpTokenT (env : Env) : Except String String × List Ev :=
  let key := pyStrip env.managementKey
  if key = "" || pyIn "your_management_key" (pyLower key) || pyIn "here" (pyLower key) then
    (.error "SOLIDDATA_MANAGEMENT_KEY is missing or a placeholder. Set it in your environment (e.g. .env or CrewAI AMP tool config).", [])
  else
    (match env.authNet with
      | .raised e => .error e
      | .status401 => .error "Client error 401 Unauthorized for auth endpoint"
      | .ok200 body =>
        match body with
        | .str s => .ok (stripBearer s)
        | .dict fs => tokenFromDict "Auth response missing token or access_token." fs
        | b => .error ("Unexpected auth response type: " ++ pyTypeName b),
     [.authCall])

/-- `_call_solid_text2sql` of tool.py (lines 163-184): token exchange, then a
`try` block performing connect and exactly one `text2sql` call, with
`disconnect` in the `finally`.  The token exchange happens before the
`try`/`finally`, so when it raises, the function exits with no session
activity at all.  A failed connect attempt still appears as a `connect`
event (the call was issued), and the `finally` still runs `disconnect`. -/
def callSolid (env : Env) (question semanticLayerId : String) : Except String String × List Ev :=
  match getMcpTokenT env with
  | (.error e, tr) => (.error e, tr)
  | (.ok _, tr) =>
    match env.connectRes with
    | .error e => (.error e, tr ++ [.connect, .disconnect])
    | .ok _ =>
      match env.toolRes with
      | .error e => (.error e, tr ++ [.connect, .toolCall question semanticLayerId, .disconnect])
      | .ok r => (.ok (extract r), tr ++ [.connect, .toolCall question semanticLayerId, .disconnect])

/-- `_get_semantic_layer_id` of tool.py (lines 68-73). -/
def getSemanticLayerIdT (env : Env) : Except String String :=
  let value := pyStrip env.semanticLayerId
  if value = "" then
    .error "SEMANTIC_LAYER_ID is missing. Set it in your .env (or CrewAI tool config)."
  else .ok value

/-- The dict branches of `_normalize_question`: `d.get("question")`, accepted
when present, not `None`, and `str(q).strip()` is non-empty. -/
def qFromDictVal (v : Value) : Option String :=
  match v with
  | .dict fs =>
    if (pyGet fs "question").isNull then none
    else if pyStrip (pyStr (pyGet fs "question")) = "" then none
    else some (pyStrip (pyStr (pyGet fs "question")))
  | _ => none

/-- `_normalize_question` of tool.py (lines 76-88): a non-empty string
question wins; else a dict question with a usable `"question"` entry; else
the `"question"` keyword argument; else the empty string. -/
def normalizeQuestion (question kwargs : Value) : String :=
  match (match question with
         | .str s => if pyStrip s = "" then none else some (pyStrip s)
         | _ => none) with
  | some q => q
  | none =>
    match qFromDictVal question with
    | some q => q
    | none =>
      match qFromDictVal kwargs with
      | some q => q
      | none => ""

/-- What `SolidText2SQLTool._run` hands back to the agent framework: a string
return value, or an exception escaping the call (nothing in `_run` catches
what `asyncio.run(_call_solid_text2sql(...))` raises). -/
inductive RunResult where
  | ok : String → RunResult
  | exn : String → RunResult

/-- The fixed missing-question error string of `_run`. -/
def missingQuestionMsg : String :=
  "Error: missing \x27question\x27 input. Call this tool with \x7b\"question\": \"your natural-language data question\"\x7d."

/-- `SolidText2SQLTool._run` of tool.py (lines 113-124), with the trace of
outbound events it causes.  The only `try`/`except` in `_run` wraps
`_get_semantic_layer_id`; `asyncio.run(_call_solid_text2sql(...))` is not
wrapped, so its failures surface as `RunResult.exn`. -/
def run (env : Env) (question kwargs : Value) : RunResult × List Ev :=
  let q := normalizeQuestion question kwargs
  if q = "" || pyStrip q = "" then (.ok missingQuestionMsg, [])
  else
    match getSemanticLayerIdT env with
    | .error e => (.ok ("Error: " ++ e), [])
    | .ok layerId =>
      match callSolid env (pyStrip q) layerId with
      | (.ok s, tr) => (.ok s, tr)
      | (.error e, tr) => (.exn e, tr)

/-- The `semantic_layer_id` arguments of the tool calls in a trace. -/
def toolLayers (tr : List Ev) : List String :=
  tr.filterMap (fun e => match e with
    | .toolCall _ layerId => some layerId
    | _ => none)

/-- The number of `text2sql` tool calls in a trace. -/
def toolCallCount (tr : List Ev) : Nat :=
  (toolLayers tr).length

/-! ## The REST invocation sequencer (scripts/e2e_openapi_test.py) -/

/-- The key guard at the top of `main` (lines 61-64): `key` is rejected — the
script prints an error and returns 1 before creating the HTTP client — when
the stripped key is empty or contains `"your-"` or `"here"` case-insensitively
(note the `"your-"` pattern, unlike the `"your_management_key"` pattern of the
two `get_mcp_token` variants). -/
def e2eKeyGuardFails (key : String) : Bool :=
  let k := pyStrip key
  k = "" || pyIn "your-" (pyLower k) || pyIn "here" (pyLower k)

/-- The prefix of `main` before any network call: `some 1` when the key guard
aborts the script, `none` when execution continues to the HTTP client. -/
def e2eKeyAbort (key : String) : Option Nat :=
  if e2eKeyGuardFails key then some 1 else none

/-- Outcome of one `client.post` attempt inside the retry loop: an HTTP
response with a status code, an `httpx.ReadTimeout` (the only exception the
loop catches), or any other exception (uncaught, so it propagates). -/
inductive AttemptOut where
  | status : Nat → AttemptOut
  | readTimedOut : AttemptOut
  | raised : String → AttemptOut

/-- Observable steps of the retry loop: the POST of attempt `i`, and a
`time.sleep(d)`. -/
inductive Step where
  | post : Nat → Step
  | sleep : Nat → Step
deriving DecidableEq

/-- How the retry loop ends: with `resp` bound to a response of the given
status (break on non-503, or a 503 on the final attempt), with the
timeout-exhausted `return 1`, with an uncaught exception, or — when the
configured attempt count is 0 — with `resp` still `None` (the script then
returns 1). -/
inductive LoopExit where
  | gotResp : Nat → LoopExit
  | timedOutExit : LoopExit
  | raised : String → LoopExit
  | noResp : LoopExit
deriving DecidableEq

/-- `E2E_RETRY_BACKOFF = [5, 15, 30]` (line 57), hardcoded in the script. -/
def E2E_RETRY_BACKOFF : List Nat := [5, 15, 30]

/-- `delay = E2E_RETRY_BACKOFF[min(attempt, len(E2E_RETRY_BACKOFF) - 1)]`
(lines 111 and 116). -/
def delayFor (attempt : Nat) : Nat :=
  E2E_RETRY_BACKOFF.getD (min attempt (E2E_RETRY_BACKOFF.length - 1)) 0

/-- The retry loop of `main` (lines 104-125), written with the current
attempt index `i` and the count `rem + 1` of attempts still allowed (so the
Python guard `attempt < E2E_RETRY_ATTEMPTS - 1` is `rem ≠ 0`).  A non-503
status breaks immediately; a 503 or a read-timeout sleeps `delayFor i` and
retries while attempts remain; a 503 on the final attempt leaves the loop
with that response; a read-timeout on the final attempt returns 1; any other
exception propagates uncaught. -/
def loopAux (outs : Nat → AttemptOut) : Nat → Nat → LoopExit × List Step
  | _, 0 => (.noResp, [])
  | i, rem + 1 =>
    match outs i with
    | .status c =>
      if c ≠ 503 then (.gotResp c, [.post i])
      else if rem ≠ 0 then
        let r := loopAux outs (i + 1) rem
        (r.1, .post i :: .sleep (delayFor i) :: r.2)
      else (.gotResp c, [.post i])
    | .readTimedOut =>
      if rem ≠ 0 then
        let r := loopAux outs (i + 1) rem
        (r.1, .post i :: .sleep (delayFor i) :: r.2)
      else (.timedOutExit, [.post i])
    | .raised e => (.raised e, [.post i])

/-- The whole retry loop, starting at attempt 0 with the configured attempt
count `E2E_RETRY_ATTEMPTS` (default 3). -/
def runLoop (attempts : Nat) (outs : Nat → AttemptOut) : LoopExit × List Step :=
  loopAux outs 0 attempts

/-- The number of POST attempts in a loop trace. -/
def postCount (tr : List Step) : Nat :=
  (tr.filter (fun s => match s with | .post _ => true | _ => false)).length

/-- Python `"message" in body` membership: key presence for a dict (even when
the stored value is `None`), substring for a string, element equality for a
list; any other body type makes Python raise `TypeError`. -/
def hasMessageKey : Value → Bool
  | .dict fs => (getAttr fs "message").isSome
  | .str s => pyIn "message" s
  | .list xs => xs.any (fun e => match e with | .str s => s == "message" | _ => false)
  | _ => false

/-- Classification of the response that survives the retry loop (lines
126-149): 404 is the endpoint-not-exposed case, any other non-200 a plain
HTTP failure; on 200 the body must decode as JSON (`body = none` models a
decode failure) and contain a `"message"` field.  `raisedTypeErr` is the
`TypeError` Python raises when `"message" in body` is applied to a
non-container body. -/
inductive RestOutcome where
  | okMessage : RestOutcome
  | endpointNotExposed : RestOutcome
  | httpError : Nat → RestOutcome
  | notJson : RestOutcome
  | missingMessage : RestOutcome
  | raisedTypeErr : RestOutcome
deriving DecidableEq

/-- `main` after the loop: status check with the special 404 branch, then
JSON decoding, then the `"message"` field check. -/
def restOutcome (code : Nat) (body : Option Value) : RestOutcome :=
  if code ≠ 200 then
    if code = 404 then .endpointNotExposed else .httpError code
  else
    match body with
    | none => .notJson
    | some b =>
      match b with
      | .dict _ => if hasMessageKey b then .okMessage else .missingMessage
      | .str _ => if hasMessageKey b then .okMessage else .missingMessage
      | .list _ => if hasMessageKey b then .okMessage else .missingMessage
      | _ => .raisedTypeErr

/-! ## Helper lemmas -/

/-- `pyStrip`, written with `List.rdropWhile`. -/
theorem pyStrip_eq (s : String) :
    pyStrip s = String.mk (List.rdropWhile isPySpace (s.data.dropWhile isPySpace)) := rfl

/-- Stripping is idempotent. -/
theorem pyStrip_idem (s : String) : pyStrip (pyStrip s) = pyStrip s := by
  have key : ∀ l : List Char,
      List.rdropWhile isPySpace (List.dropWhile isPySpace
        (List.rdropWhile isPySpace (List.dropWhile isPySpace l))) =
      List.rdropWhile isPySpace (List.dropWhile isPySpace l) := by
    intro l
    set p := isPySpace with hp
    set m := List.dropWhile p l with hm
    have hmfix : List.dropWhile p m = m := by
      rw [hm]; exact List.dropWhile_idempotent p l
    have hpre : List.rdropWhile p m <+: m := List.rdropWhile_prefix p m
    have hfix : List.dropWhile p (List.rdropWhile p m) = List.rdropWhile p m := by
      rw [List.dropWhile_eq_self_iff]
      intro hl
      have hlen : 0 < m.length := lt_of_lt_of_le hl hpre.length_le
      have hidx : (List.rdropWhile p m).get ⟨0, hl⟩ = m.get ⟨0, hlen⟩ := by
        simp only [List.get_eq_getElem]
        exact hpre.getElem hl
      rw [hidx]
      exact (List.dropWhile_eq_self_iff).mp hmfix hlen
    rw [hfix]
    exact List.rdropWhile_idempotent p m
  calc pyStrip (pyStrip s)
      = String.mk (List.rdropWhile isPySpace (List.dropWhile isPySpace
          (List.rdropWhile isPySpace (List.dropWhile isPySpace s.data)))) := rfl
    _ = String.mk (List.rdropWhile isPySpace (List.dropWhile isPySpace s.data)) := by
          rw [key s.data]
    _ = pyStrip s := rfl

/-- A question delivered by the dict branches of `_normalize_question` is
already stripped. -/
theorem qFromDictVal_stripped {v : Value} {q : String} (h : qFromDictVal v = some q) :
    pyStrip q = q := by
  unfold qFromDictVal at h
  split at h
  · split at h
    · exact absurd h (by simp)
    · split at h
      · exact absurd h (by simp)
      · cases h; exact pyStrip_idem _
  · exact absurd h (by simp)

/-- The output of `_normalize_question` is a stripped string. -/
theorem normalizeQuestion_stripped (question kwargs : Value) :
    pyStrip (normalizeQuestion question kwargs) = normalizeQuestion question kwargs := by
  unfold normalizeQuestion
  split
  · rename_i q heq
    split at heq
    · split at heq
      · exact absurd heq (by simp)
      · cases heq; exact pyStrip_idem _
    · exact absurd heq (by simp)
  · split
    · rename_i q heq
      exact qFromDictVal_stripped heq
    · split
      · rename_i q heq
        exact qFromDictVal_stripped heq
      · rfl

/-- `_run` is a function of the normalized question only (besides the
environment): equal normalizations give equal behaviour. -/
theorem run_congr (env : Env) {a ka b kb : Value}
    (h : normalizeQuestion a ka = normalizeQuestion b kb) :
    run env a ka = run env b kb := by
  simp only [run, h]

/-! ## Claims C1, C9 — the response normalizer -/

/-- C1: For every input value of any `RemoteResponse` shape, the response
normalizer `_extract_mcp_tool_text` terminates and returns a string — the
fuel-indexed recursion reaches its answer with any fuel above the input's
size, and that answer is `extract v` — and an input of unrecognized shape
yields its default stringified form (stripped, as the source strips the
fallback `str(result)`). -/
theorem c1_extract_total :
    (∀ v : Value, extractF (sizeOf v + 1) v = some (extract v)) ∧
    (∀ r : String, extract (Value.other r) = pyStrip (pyStr (Value.other r))) := by
  constructor
  · intro v
    exact extractF_eq (sizeOf v + 1) v (by omega)
  · intro r
    simp [extract, pyStr, pyRepr]

/-- The sequence rule as the amended spec words it: the stripped string form
of the `text` field of every element that has a non-`None` one (dict key or
object attribute), in order. -/
def specSeqTexts (xs : List Value) : List String :=
  xs.filterMap (fun item =>
    match item with
    | .dict fs => if (pyGet fs "text").isNull then none
                  else some (pyStrip (pyStr (pyGet fs "text")))
    | .obj fs => (getAttr fs "text").map (fun t => pyStrip (pyStr t))
    | _ => none)

/-- The list branch of the source collects exactly the spec-side text parts. -/
theorem textParts_eq_specSeqTexts : ∀ xs : List Value, textParts xs = specSeqTexts xs := by
  intro xs
  induction xs with
  | nil => rfl
  | cons x rest ih =>
    cases x with
    | dict fs =>
      by_cases h : (pyGet fs "text").isNull
      · simp [textParts, specSeqTexts, List.filterMap_cons, h, ih]
      · simp [textParts, specSeqTexts, List.filterMap_cons, h, ih]
    | obj fs =>
      cases h : getAttr fs "text" with
      | some t => simp [textParts, specSeqTexts, List.filterMap_cons, h, ih]
      | none => simp [textParts, specSeqTexts, List.filterMap_cons, h, ih]
    | str s => simp [textParts, specSeqTexts, List.filterMap_cons, ih]
    | list l => simp [textParts, specSeqTexts, List.filterMap_cons, ih]
    | null => simp [textParts, specSeqTexts, List.filterMap_cons, ih]
    | other r => simp [textParts, specSeqTexts, List.filterMap_cons, ih]

/-- C9 counterexample: on the one-block list `[{text: " a "}]` the normalizer
returns `"a"`, not the raw text field `" a "` — each collected text field is
stripped before joining, so the claim's "joins the text field of every
element" does not hold verbatim. -/
theorem c9_counterexample :
    extract (Value.list [Value.dict [("text", Value.str " a ")]]) = "a" ∧
    ("a" : String) ≠ " a " := by
  constructor
  · exact extract_of_extractF 10 _ _ (by decide)
  · decide

/-- C9 amended: `[{text:"a"}, {not_text:"x"}, {text:"b"}]` normalizes to
`"a\nb"`; in general a sequence input joins with newlines the stripped
string form of the `text` field of every element that has a non-null one,
skipping the others, and falls back to the trimmed stringification of the
whole sequence when no element yields text. -/
theorem c9_amended :
    (extract (Value.list [Value.dict [("text", Value.str "a")],
        Value.dict [("not_text", Value.str "x")],
        Value.dict [("text", Value.str "b")]]) = "a\nb") ∧
    (∀ xs : List Value,
      extract (Value.list xs) =
        if (specSeqTexts xs).isEmpty then pyStrip (pyStr (Value.list xs))
        else pyJoin "\n" (specSeqTexts xs)) := by
  constructor
  · exact extract_of_extractF 10 _ _ (by decide)
  · intro xs
    rw [← textParts_eq_specSeqTexts]
    simp [extract]

/-! ## Claims C3, C4 — the credential exchange -/

/-- C3 counterexample: for the auth-endpoint token `"Bearer  XYZ"` (double
space) the code returns `"XYZ"`, while the claim's "value with exactly that
one prefix instance removed" is `" XYZ"`: the code also strips whitespace
after removing the prefix. -/
theorem c3_counterexample :
    pyStarts (pyLower "Bearer  XYZ") "bearer " = true ∧
    stripBearer "Bearer  XYZ" ≠ pyDropChars "Bearer  XYZ" 7 := by
  constructor
  · decide
  · decide

/-- C3 amended: for every already-stripped token beginning with the
case-insensitive `"Bearer "` prefix, the returned token equals the value
with that one 7-character prefix instance removed and then stripped of
surrounding whitespace (so a downstream caller applying `"Bearer "` once
still produces exactly one prefix). -/
theorem c3_amended (t : String) (htrim : pyStrip t = t)
    (h : pyStarts (pyLower t) "bearer " = true) :
    stripBearer t = pyStrip (pyDropChars t 7) := by
  simp only [stripBearer, htrim, h, if_true]

/-- Witness for `c3_amended` at the concrete token `"Bearer tok"`. -/
theorem c3_witness :
    pyStrip "Bearer tok" = "Bearer tok" ∧
    pyStarts (pyLower "Bearer tok") "bearer " = true ∧
    stripBearer "Bearer tok" = pyStrip (pyDropChars "Bearer tok" 7) :=
  ⟨by decide, by decide, c3_amended "Bearer tok" (by decide) (by decide)⟩

/-- C4 counterexample: the secret `"your-key-123"` contains `"your-"` yet
passes the placeholder guard of `get_mcp_token`, which then performs its
network call (here observed returning 401) instead of failing with a
configuration error before any call. -/
theorem c4_counterexample :
    pyIn "your-" (pyLower "your-key-123") = true ∧
    (authExchange "your-key-123" AuthNet.status401).isConfigError = false := by
  constructor
  · decide
  · decide

/-- C4 amended: the placeholder patterns of the credential exchange
(`get_mcp_token`) are the empty/blank secret, `"your_management_key"` and
`"here"` (case-insensitive); such secrets fail with a configuration error
and zero network calls.  The `"your-"` pattern belongs only to the REST test
script's own guard, which aborts `main` (exit 1) before any network call. -/
theorem c4_amended :
    (∀ key : String,
      (pyStrip key = "" ∨ pyIn "your_management_key" (pyLower key) = true ∨
        pyIn "here" (pyLower key) = true) →
      ∃ msg, ∀ net : AuthNet, authExchange key net = .configError msg) ∧
    (∀ key : String,
      (pyStrip key = "" ∨ pyIn "your-" (pyLower (pyStrip key)) = true ∨
        pyIn "here" (pyLower (pyStrip key)) = true) →
      e2eKeyAbort key = some 1) := by
  constructor
  · intro key h
    by_cases h0 : pyStrip key = ""
    · exact ⟨"SOLIDDATA_MANAGEMENT_KEY is missing or empty. Set it in your .env file (see .env.example).",
        fun net => by simp [authExchange, h0]⟩
    · have hp : (pyIn "your_management_key" (pyLower key) || pyIn "here" (pyLower key)) = true := by
        rcases h with h | h | h
        · exact absurd h h0
        · simp [h]
        · simp [h]
      exact ⟨"SOLIDDATA_MANAGEMENT_KEY looks like a placeholder. Replace it in .env with your real SolidData management key.",
        fun net => by simp [authExchange, h0, hp]⟩
  · intro key h
    have hg : e2eKeyGuardFails key = true := by
      unfold e2eKeyGuardFails
      rcases h with h | h | h <;> simp [h]
    simp [e2eKeyAbort, hg]

/-- Witness for `c4_amended` at two concrete placeholder secrets. -/
theorem c4_witness :
    (∃ msg, ∀ net : AuthNet, authExchange "put_your_management_key" net = .configError msg) ∧
    e2eKeyAbort "your-key-123" = some 1 :=
  ⟨c4_amended.1 "put_your_management_key" (Or.inr (Or.inl (by decide))),
   c4_amended.2 "your-key-123" (Or.inr (Or.inl (by decide)))⟩

/-! ## Claims C2, C5 — the REST retry loop -/

/-- `postCount` of a `post` step. -/
theorem postCount_post (i : Nat) (tr : List Step) :
    postCount (Step.post i :: tr) = postCount tr + 1 := by
  simp [postCount, List.filter_cons]

/-- `postCount` of a `sleep` step. -/
theorem postCount_sleep (d : Nat) (tr : List Step) :
    postCount (Step.sleep d :: tr) = postCount tr := by
  simp [postCount, List.filter_cons]

/-- The loop performs at most as many POSTs as it has attempts left. -/
theorem postCount_loopAux (outs : Nat → AttemptOut) :
    ∀ rem i : Nat, postCount (loopAux outs i rem).2 ≤ rem := by
  intro rem
  induction rem with
  | zero => intro i; simp [loopAux, postCount]
  | succ rem ih =>
    intro i
    cases houts : outs i with
    | status c =>
      by_cases hc : c ≠ 503
      · simp [loopAux, houts, hc, postCount_post, postCount]
      · push_neg at hc
        subst hc
        by_cases hrem : rem ≠ 0
        · have := ih (i + 1)
          simp [loopAux, houts, hrem, postCount_post, postCount_sleep]
          omega
        · push_neg at hrem
          subst hrem
          simp [loopAux, houts, postCount_post, postCount]
    | readTimedOut =>
      by_cases hrem : rem ≠ 0
      · have := ih (i + 1)
        simp [loopAux, houts, hrem, postCount_post, postCount_sleep]
        omega
      · push_neg at hrem
        subst hrem
        simp [loopAux, houts, postCount_post, postCount]
    | raised e =>
      simp [loopAux, houts, postCount_post, postCount]

/-- C2: with the default 3 attempts and backoff `[5, 15, 30]`, the
503/503/200 scenario sleeps 5 s then 15 s and returns the attempt-3
response; the POST count never exceeds the configured attempt count; past
the end of the backoff list the last delay repeats; and a non-503 status or
a non-read-timeout error never leads to a retry (the loop returns at once). -/
theorem c2_retry_sequencer :
    (runLoop 3 (fun i => if i < 2 then AttemptOut.status 503 else AttemptOut.status 200) =
      (LoopExit.gotResp 200,
        [Step.post 0, Step.sleep 5, Step.post 1, Step.sleep 15, Step.post 2])) ∧
    (∀ (attempts : Nat) (outs : Nat → AttemptOut),
      postCount (runLoop attempts outs).2 ≤ attempts) ∧
    (∀ i : Nat, E2E_RETRY_BACKOFF.length - 1 ≤ i →
      delayFor i = E2E_RETRY_BACKOFF.getLastD 0) ∧
    (∀ (outs : Nat → AttemptOut) (i rem c : Nat), outs i = AttemptOut.status c → c ≠ 503 →
      loopAux outs i (rem + 1) = (LoopExit.gotResp c, [Step.post i])) ∧
    (∀ (outs : Nat → AttemptOut) (i rem : Nat) (e : String), outs i = AttemptOut.raised e →
      loopAux outs i (rem + 1) = (LoopExit.raised e, [Step.post i])) := by
  refine ⟨?_, ?_, ?_, ?_, ?_⟩
  · decide
  · intro attempts outs
    exact postCount_loopAux outs attempts 0
  · intro i hi
    simp only [E2E_RETRY_BACKOFF, List.length_cons, List.length_nil] at hi
    have hmin : min i 2 = 2 := by omega
    simp [delayFor, E2E_RETRY_BACKOFF, hmin]
  · intro outs i rem c houts hc
    simp [loopAux, houts, hc]
  · intro outs i rem e houts
    simp [loopAux, houts]

/-- Witness for `c2_retry_sequencer` at concrete attempt outcomes. -/
theorem c2_witness :
    postCount (runLoop 3 (fun _ => AttemptOut.readTimedOut)).2 ≤ 3 ∧
    delayFor 7 = E2E_RETRY_BACKOFF.getLastD 0 ∧
    loopAux (fun _ => AttemptOut.status 404) 0 (4 + 1) = (LoopExit.gotResp 404, [Step.post 0]) ∧
    loopAux (fun _ => AttemptOut.raised "connection error") 1 (2 + 1) =
      (LoopExit.raised "connection error", [Step.post 1]) :=
  ⟨c2_retry_sequencer.2.1 3 (fun _ => AttemptOut.readTimedOut),
   c2_retry_sequencer.2.2.1 7 (by decide),
   c2_retry_sequencer.2.2.2.1 (fun _ => AttemptOut.status 404) 0 4 404 rfl (by decide),
   c2_retry_sequencer.2.2.2.2 (fun _ => AttemptOut.raised "connection error") 1 2
     "connection error" rfl⟩

/-- C5: a 404 ends the retry loop immediately at any attempt with that
response (no sleep, no further POST); after the loop, 404 — and only 404 —
is classified as the endpoint-not-exposed outcome, distinct from every other
failure classification. -/
theorem c5_endpoint_not_exposed :
    (∀ (outs : Nat → AttemptOut) (i rem : Nat), outs i = AttemptOut.status 404 →
      loopAux outs i (rem + 1) = (LoopExit.gotResp 404, [Step.post i])) ∧
    (∀ body : Option Value, restOutcome 404 body = RestOutcome.endpointNotExposed) ∧
    (∀ (c : Nat) (body : Option Value), c ≠ 404 →
      restOutcome c body ≠ RestOutcome.endpointNotExposed) := by
  refine ⟨?_, ?_, ?_⟩
  · intro outs i rem houts
    simp [loopAux, houts]
  · intro body
    simp [restOutcome]
  · intro c body hc
    by_cases h200 : c = 200
    · subst h200
      cases body with
      | none => simp [restOutcome]
      | some b => cases b <;> simp [restOutcome] <;> split_ifs <;> simp
    · simp [restOutcome, hc, h200]

/-- Witness for `c5_endpoint_not_exposed` at concrete inputs. -/
theorem c5_witness :
    loopAux (fun _ => AttemptOut.status 404) 2 (1 + 1) = (LoopExit.gotResp 404, [Step.post 2]) ∧
    restOutcome 404 (some (Value.dict [])) = RestOutcome.endpointNotExposed ∧
    restOutcome 503 none ≠ RestOutcome.endpointNotExposed :=
  ⟨c5_endpoint_not_exposed.1 _ 2 1 rfl,
   c5_endpoint_not_exposed.2.1 _,
   c5_endpoint_not_exposed.2.2 503 none (by decide)⟩

/-! ## Claims C6, C7, C8, C10 — the CrewAI tool pipeline -/

/-- The token exchange either makes no call (guard rejection) or exactly the
one auth POST. -/
theorem getMcpTokenT_trace (env : Env) :
    (getMcpTokenT env).2 = [] ∨ (getMcpTokenT env).2 = [Ev.authCall] := by
  simp only [getMcpTokenT]
  split
  · left; rfl
  · right; rfl

/-- When the token exchange succeeds, the auth POST happened. -/
theorem getMcpTokenT_ok_trace {env : Env} {t : String}
    (h : (getMcpTokenT env).1 = Except.ok t) : (getMcpTokenT env).2 = [Ev.authCall] := by
  simp only [getMcpTokenT] at h ⊢
  split at h
  · simp at h
  · rename_i hcond
    rw [if_neg hcond]

/-- `_call_solid_text2sql` when the token exchange raises: the exception
propagates and the trace is exactly the exchange's own trace — no connect,
no tool call, no disconnect. -/
theorem callSolid_token_error (env : Env) (q l : String) {e : String}
    (h : (getMcpTokenT env).1 = Except.error e) :
    callSolid env q l = (Except.error e, (getMcpTokenT env).2) := by
  unfold callSolid
  rcases hEq : getMcpTokenT env with ⟨r, tr⟩
  rw [hEq] at h
  simp at h
  subst h
  simp

/-- `_call_solid_text2sql` when the token exchange succeeds: the session is
opened and disconnected on both the connect-failure and the tool-call paths. -/
theorem callSolid_token_ok (env : Env) (q l : String) {t : String}
    (h : (getMcpTokenT env).1 = Except.ok t) :
    callSolid env q l =
      (match env.connectRes with
       | .error e => (Except.error e, [Ev.authCall, Ev.connect, Ev.disconnect])
       | .ok _ =>
         match env.toolRes with
         | .error e =>
             (Except.error e, [Ev.authCall, Ev.connect, Ev.toolCall q l, Ev.disconnect])
         | .ok r =>
             (Except.ok (extract r),
              [Ev.authCall, Ev.connect, Ev.toolCall q l, Ev.disconnect])) := by
  have htr := getMcpTokenT_ok_trace h
  unfold callSolid
  rcases hEq : getMcpTokenT env with ⟨r, tr⟩
  rw [hEq] at h htr
  simp at h htr
  subst h
  subst htr
  cases env.connectRes with
  | error e => rfl
  | ok u =>
    cases env.toolRes with
    | error e => rfl
    | ok r2 => rfl

/-- A C7 scenario environment: a valid-looking key whose auth POST raises. -/
def c7EnvAuthRaises : Env :=
  { managementKey := "sk_live_abc", semanticLayerId := "L1",
    authNet := AuthNet.raised "connection reset", connectRes := Except.ok (),
    toolRes := Except.ok (Value.str "x") }


/-- C7 counterexample: when the token exchange raises (here: the auth POST
fails with a connection error), `_call_solid_text2sql` exits on a path with
no `disconnect` at all — the exchange happens before the `try`/`finally`
that guards the session. -/
theorem c7_counterexample :
    (callSolid c7EnvAuthRaises "q" "L1").1 = Except.error "connection reset" ∧
    Ev.disconnect ∉ (callSolid c7EnvAuthRaises "q" "L1").2 := by
  constructor
  · rfl
  · decide

/-- C7 amended: once the token exchange has succeeded, `disconnect` is
invoked on every exit path — including when connect or the tool call raises —
with at most one tool call per connect/disconnect pair: exactly one when
connect succeeds, zero when connect itself raises.  When the token exchange
fails, the function exits before any connect, tool call, or disconnect. -/
theorem c7_amended :
    ∀ (env : Env) (q l : String),
      ((∃ e, (getMcpTokenT env).1 = Except.error e) →
        toolCallCount (callSolid env q l).2 = 0 ∧
        Ev.connect ∉ (callSolid env q l).2 ∧
        Ev.disconnect ∉ (callSolid env q l).2) ∧
      (∀ t, (getMcpTokenT env).1 = Except.ok t →
        ((∃ e, env.connectRes = Except.error e) →
          (callSolid env q l).2 = [Ev.authCall, Ev.connect, Ev.disconnect]) ∧
        (env.connectRes = Except.ok () →
          (callSolid env q l).2 = [Ev.authCall, Ev.connect, Ev.toolCall q l, Ev.disconnect])) := by
  intro env q l
  constructor
  · rintro ⟨e, he⟩
    rw [callSolid_token_error env q l he]
    rcases getMcpTokenT_trace env with h2 | h2 <;> rw [h2] <;>
      exact ⟨rfl, by decide, by decide⟩
  · intro t ht
    constructor
    · rintro ⟨e, hc⟩
      rw [callSolid_token_ok env q l ht, hc]
    · intro hc
      rw [callSolid_token_ok env q l ht, hc]
      cases env.toolRes with
      | error e => rfl
      | ok r => rfl

/-- A C7 scenario environment where every interaction succeeds. -/
def c7EnvAllOk : Env :=
  { managementKey := "k", semanticLayerId := "L",
    authNet := AuthNet.ok200 (Value.str "tok"), connectRes := Except.ok (),
    toolRes := Except.ok (Value.str "y") }


/-- Witness for `c7_amended`: a failed exchange makes zero tool calls; a
fully successful invocation brackets exactly one tool call between `connect`
and `disconnect`. -/
theorem c7_witness :
    toolCallCount (callSolid c7EnvAuthRaises "q" "L").2 = 0 ∧
    (callSolid c7EnvAllOk "q" "L").2 =
      [Ev.authCall, Ev.connect, Ev.toolCall "q" "L", Ev.disconnect] :=
  ⟨((c7_amended c7EnvAuthRaises "q" "L").1 ⟨"connection reset", rfl⟩).1,
   ((c7_amended c7EnvAllOk "q" "L").2 "tok" rfl).2 rfl⟩

/-- A C6 scenario environment: management key unset, everything else fine. -/
def c6EnvKeyMissing : Env :=
  { managementKey := "", semanticLayerId := "L1",
    authNet := AuthNet.ok200 (Value.str "tok"), connectRes := Except.ok (),
    toolRes := Except.ok (Value.str "ok") }


/-- C6 counterexample: with a missing management key (and a perfectly fine
question and semantic-layer id), `_run` raises — the `ValueError` from
`_get_mcp_token` inside `asyncio.run(_call_solid_text2sql(...))` is not
caught by `_run`, so the failure is not returned as a string. -/
theorem c6_counterexample :
    (run c6EnvKeyMissing (Value.str "hi") (Value.dict [])).1 =
      RunResult.exn "SOLIDDATA_MANAGEMENT_KEY is missing or a placeholder. Set it in your environment (e.g. .env or CrewAI AMP tool config)." := rfl

/-- C6 amended: a missing question and a missing semantic-layer id are
returned to the framework as string-shaped errors with no outbound call, but
every failure inside the MCP call path — auth/placeholder errors, connect
and tool-call exceptions — escapes `_run` as an exception. -/
theorem c6_amended :
    (∀ (env : Env) (question kwargs : Value), normalizeQuestion question kwargs = "" →
      run env question kwargs = (RunResult.ok missingQuestionMsg, [])) ∧
    (∀ (env : Env) (question kwargs : Value), normalizeQuestion question kwargs ≠ "" →
      pyStrip env.semanticLayerId = "" →
      run env question kwargs =
        (RunResult.ok ("Error: " ++
          "SEMANTIC_LAYER_ID is missing. Set it in your .env (or CrewAI tool config)."), [])) ∧
    (∀ (env : Env) (question kwargs : Value) (e : String) (tr : List Ev),
      normalizeQuestion question kwargs ≠ "" → pyStrip env.semanticLayerId ≠ "" →
      callSolid env (pyStrip (normalizeQuestion question kwargs))
          (pyStrip env.semanticLayerId) = (Except.error e, tr) →
      run env question kwargs = (RunResult.exn e, tr)) := by
  refine ⟨?_, ?_, ?_⟩
  · intro env question kwargs h
    simp [run, h]
  · intro env question kwargs hq hl
    have hs := normalizeQuestion_stripped question kwargs
    simp [run, hq, hs, getSemanticLayerIdT, hl]
  · intro env question kwargs e tr hq hl hcall
    have hs := normalizeQuestion_stripped question kwargs
    rw [hs] at hcall
    simp [run, hq, hs, getSemanticLayerIdT, hl, hcall]

/-- A C6 scenario environment: semantic-layer id unset. -/
def c6EnvNoLayer : Env :=
  { managementKey := "k", semanticLayerId := "",
    authNet := AuthNet.ok200 (Value.str "t"), connectRes := Except.ok (),
    toolRes := Except.ok (Value.str "x") }

/-- A C6 scenario environment: configuration fine, auth POST raises. -/
def c6EnvAuthRaises : Env :=
  { managementKey := "k", semanticLayerId := "L",
    authNet := AuthNet.raised "boom", connectRes := Except.ok (),
    toolRes := Except.ok (Value.str "x") }


/-- Witness for `c6_amended` at concrete environments: the two string-shaped
configuration failures and one escaping auth exception. -/
theorem c6_witness :
    run c6EnvNoLayer (Value.str "hi") (Value.dict []) =
      (RunResult.ok ("Error: " ++
        "SEMANTIC_LAYER_ID is missing. Set it in your .env (or CrewAI tool config)."), []) ∧
    run c6EnvAuthRaises (Value.str " ") (Value.dict []) =
      (RunResult.ok missingQuestionMsg, []) ∧
    run c6EnvAuthRaises (Value.str "hi") (Value.dict []) =
      (RunResult.exn "boom", [Ev.authCall]) :=
  ⟨c6_amended.2.1 c6EnvNoLayer _ _ (by decide) rfl,
   c6_amended.1 c6EnvAuthRaises _ _ (by decide),
   c6_amended.2.2 c6EnvAuthRaises _ _ "boom" [Ev.authCall] (by decide) (by decide) rfl⟩

/-- `toolLayers` distributes over trace concatenation. -/
theorem toolLayers_append (a b : List Ev) :
    toolLayers (a ++ b) = toolLayers a ++ toolLayers b := by
  simp [toolLayers, List.filterMap_append]

/-- The token exchange itself never performs a tool call. -/
theorem toolLayers_getMcpTokenT (env : Env) : toolLayers (getMcpTokenT env).2 = [] := by
  rcases getMcpTokenT_trace env with h | h <;> rw [h] <;> rfl

/-- Every `semantic_layer_id` argument of a tool call dispatched by
`_call_solid_text2sql` is the one it was handed. -/
theorem toolLayers_callSolid (env : Env) (q l : String) :
    ∀ x ∈ toolLayers (callSolid env q l).2, x = l := by
  intro x hx
  rcases hr : (getMcpTokenT env).1 with e | t
  · rw [callSolid_token_error env q l hr] at hx
    rcases getMcpTokenT_trace env with h2 | h2 <;> rw [h2] at hx <;>
      simp [toolLayers] at hx
  · rw [callSolid_token_ok env q l hr] at hx
    rcases hc : env.connectRes with e | u <;> rw [hc] at hx
    · simp [toolLayers] at hx
    · rcases ht2 : env.toolRes with e2 | rr <;> rw [ht2] at hx
      · simp [toolLayers] at hx
        exact hx
      · simp [toolLayers] at hx
        exact hx

/-- Stripping the empty string. -/
theorem pyStrip_empty : pyStrip "" = "" := by decide

/-- `_run` on a usable question and semantic-layer id: it dispatches through
`_call_solid_text2sql`, returning its string on success and letting its
exception escape on failure. -/
theorem run_dispatch (env : Env) (question kwargs : Value)
    (hq : normalizeQuestion question kwargs ≠ "")
    (hl : pyStrip env.semanticLayerId ≠ "") :
    run env question kwargs =
      (match callSolid env (pyStrip (normalizeQuestion question kwargs))
          (pyStrip env.semanticLayerId) with
       | (Except.ok s, tr) => (RunResult.ok s, tr)
       | (Except.error e, tr) => (RunResult.exn e, tr)) := by
  have hs := normalizeQuestion_stripped question kwargs
  simp [run, hq, hs, getSemanticLayerIdT, hl]

/-- C8: the `semantic_layer_id` argument of every dispatched tool call is the
(stripped) `SEMANTIC_LAYER_ID` configuration value, and in particular two
invocations under the same environment — whatever their question or keyword
arguments — dispatch identical semantic-layer identifiers. -/
theorem c8_layer_from_config_only :
    (∀ (env : Env) (question kwargs : Value) (l : String),
      l ∈ toolLayers (run env question kwargs).2 → l = pyStrip env.semanticLayerId) ∧
    (∀ (env : Env) (q1 k1 q2 k2 : Value) (l1 l2 : String),
      l1 ∈ toolLayers (run env q1 k1).2 → l2 ∈ toolLayers (run env q2 k2).2 → l1 = l2) := by
  have main : ∀ (env : Env) (question kwargs : Value) (l : String),
      l ∈ toolLayers (run env question kwargs).2 → l = pyStrip env.semanticLayerId := by
    intro env question kwargs l hl
    by_cases hq0 : normalizeQuestion question kwargs = ""
    · simp [run, hq0, toolLayers] at hl
    · by_cases hsem : pyStrip env.semanticLayerId = ""
      · have hs := normalizeQuestion_stripped question kwargs
        simp [run, hq0, hs, getSemanticLayerIdT, hsem, toolLayers] at hl
      · rw [run_dispatch env question kwargs hq0 hsem] at hl
        rcases hres : callSolid env (pyStrip (normalizeQuestion question kwargs))
            (pyStrip env.semanticLayerId) with ⟨rr, tr⟩
        rw [hres] at hl
        have hall := toolLayers_callSolid env (pyStrip (normalizeQuestion question kwargs))
            (pyStrip env.semanticLayerId)
        rw [hres] at hall
        rcases rr with e | s <;> exact hall l hl
  refine ⟨main, ?_⟩
  intro env q1 k1 q2 k2 l1 l2 h1 h2
  rw [main env q1 k1 l1 h1, main env q2 k2 l2 h2]

/-- A C8 scenario environment where every interaction succeeds. -/
def c8EnvAllOk : Env :=
  { managementKey := "k", semanticLayerId := "L1",
    authNet := AuthNet.ok200 (Value.str "tok"), connectRes := Except.ok (),
    toolRes := Except.ok (Value.str "x") }

/-- Witness for `c8_layer_from_config_only` at a concrete dispatching run. -/
theorem c8_witness : ("L1" : String) = pyStrip c8EnvAllOk.semanticLayerId :=
  c8_layer_from_config_only.1 c8EnvAllOk (Value.str "hi") (Value.dict []) "L1" (by decide)

/-- The dict-shaped question `{"question": q}` normalizes exactly like the
plain string question `q`. -/
theorem normQ_dict (q : String) :
    normalizeQuestion (Value.dict [("question", Value.str q)]) (Value.dict []) =
    normalizeQuestion (Value.str q) (Value.dict []) := by
  by_cases h : pyStrip q = "" <;>
    simp [normalizeQuestion, qFromDictVal, pyGet, pyStr, Value.isNull, h]

/-- The keyword argument `question=q` (with an empty positional question)
normalizes exactly like the plain string question `q`. -/
theorem normQ_kw (q : String) :
    normalizeQuestion (Value.str "") (Value.dict [("question", Value.str q)]) =
    normalizeQuestion (Value.str q) (Value.dict []) := by
  by_cases h : pyStrip q = "" <;>
    simp [normalizeQuestion, qFromDictVal, pyGet, pyStr, Value.isNull, h, pyStrip_empty]

/-- C10: supplying the question as the dict `{"question": q}` or as the
`question` keyword argument makes `_run` behave exactly as with the plain
string question `q` (same dispatched trimmed question, same result, same
outbound calls); and when no non-empty question can be recovered, `_run`
returns its missing-question error string with no outbound call at all. -/
theorem c10_question_sources :
    (∀ (env : Env) (q : String),
      run env (Value.dict [("question", Value.str q)]) (Value.dict []) =
        run env (Value.str q) (Value.dict []) ∧
      run env (Value.str "") (Value.dict [("question", Value.str q)]) =
        run env (Value.str q) (Value.dict [])) ∧
    (∀ (env : Env) (question kwargs : Value), normalizeQuestion question kwargs = "" →
      run env question kwargs = (RunResult.ok missingQuestionMsg, [])) := by
  constructor
  · intro env q
    exact ⟨run_congr env (normQ_dict q), run_congr env (normQ_kw q)⟩
  · intro env question kwargs h
    simp [run, h]

/-- A C10 scenario environment. -/
def c10Env : Env :=
  { managementKey := "k", semanticLayerId := "L",
    authNet := AuthNet.ok200 (Value.str "tok"), connectRes := Except.ok (),
    toolRes := Except.ok (Value.str "y") }

/-- Witness for `c10_question_sources` at a concrete question and at a
whitespace-only question. -/
theorem c10_witness :
    run c10Env (Value.dict [("question", Value.str "Hi")]) (Value.dict []) =
      run c10Env (Value.str "Hi") (Value.dict []) ∧
    run c10Env (Value.str "  ") (Value.dict []) = (RunResult.ok missingQuestionMsg, []) :=
  ⟨(c10_question_sources.1 c10Env "Hi").1,
   c10_question_sources.2 c10Env _ _ (by decide)⟩
